import Mathlib

/-!
Verification of the human-in-the-loop browser-automation core of the
job-application-app repository: the human-step Detector
(`src/browser/detector.ts`), the Resolution Waiter
(`waitForHumanStepResolution`), the Application Workflow Controller
(`runApplicationWorkflow` in the browser automation module) and the
application-run status updates (`updateApplicationStatus` in
`src/db/client.ts`).

The embedding is shallow: a `Page` is modelled by the only observations the
detector code makes of it — the element count returned for a CSS/text
selector (`page.locator(sel).count()`, where a failed lookup is collapsed
to 0 exactly as the `.catch(() => 0)` in the source does) and the count of
`body` elements inside a frame located by an iframe selector
(`page.frameLocator(sel).locator('body').count()`).  Time is discretised at
the waiter's 2-second polling granularity: a run of the page over time is a
stream `Nat → Page` of snapshots, one per `detectHumanStep` call, and the
waiter's wall-clock test `Date.now() - startTime < timeoutMs` becomes the
test `elapsed < timeoutMs` with `elapsed` advancing by 2000 per poll, the
detection itself taking no model time.
-/

/-- `HumanStepType` from `src/types/index.ts`:
`'captcha' | '2fa' | 'file_upload' | 'consent' | 'unknown'`.
The member `'2fa'` is written `twofa` since a Lean name cannot start with a
digit. -/
inductive HumanStepType where
  | captcha
  | twofa
  | file_upload
  | consent
  | unknown
deriving DecidableEq, Repr

/-- The string the TypeScript union member denotes, used where the source
interpolates `humanStep.type` into a message. -/
def humanStepTypeStr : HumanStepType → String
  | .captcha => "captcha"
  | .twofa => "2fa"
  | .file_upload => "file_upload"
  | .consent => "consent"
  | .unknown => "unknown"

/-- `DetectionResult` from `src/browser/detector.ts`. -/
structure DetectionResult where
  detected : Bool
  type : HumanStepType
  description : String
  element : Option String
deriving DecidableEq, Repr

/-- A page snapshot, observed through the two query shapes the detector
uses: `locatorCount sel` is `page.locator(sel).count().catch(() => 0)` and
`frameBodyCount sel` is
`page.frameLocator(sel).first().locator('body').count().catch(() => 0)`. -/
structure Page where
  frameBodyCount : String → Nat
  locatorCount : String → Nat

def recaptchaSelector : String := "iframe[src*=\"recaptcha\"]"

def hcaptchaSelector : String := "iframe[src*=\"hcaptcha\"]"

/-- `captchaKeywords` from `detectCaptcha`. -/
def captchaKeywords : List String :=
  ["text*=\"I\x27m not a robot\"",
   "text*=\"Verify you are human\"",
   "text*=\"Complete the CAPTCHA\"",
   "text*=\"Security check\"",
   "[class*=\"captcha\" i]",
   "[id*=\"captcha\" i]"]

/-- `detectCaptcha` from `src/browser/detector.ts`: reCAPTCHA iframe, then
hCaptcha iframe, then the first matching text/attribute selector. -/
def detectCaptcha (page : Page) : DetectionResult :=
  if page.frameBodyCount recaptchaSelector > 0 then
    { detected := true, type := .captcha,
      description := "reCAPTCHA verification required",
      element := some recaptchaSelector }
  else if page.frameBodyCount hcaptchaSelector > 0 then
    { detected := true, type := .captcha,
      description := "hCaptcha verification required",
      element := some hcaptchaSelector }
  else
    match captchaKeywords.find? (fun sel => page.locatorCount sel > 0) with
    | some sel =>
      { detected := true, type := .captcha,
        description := "CAPTCHA verification required", element := some sel }
    | none => { detected := false, type := .captcha, description := "", element := none }

/-- `twoFAKeywords` from `detect2FA`. -/
def twoFAKeywords : List String :=
  ["text*=\"verification code\"",
   "text*=\"Enter the code\"",
   "text*=\"Two-factor authentication\"",
   "text*=\"2FA\"",
   "text*=\"authenticator\"",
   "text*=\"security code\"",
   "input[type=\"text\"][autocomplete*=\"one-time\"]",
   "input[placeholder*=\"code\" i]",
   "input[placeholder*=\"OTP\" i]"]

/-- `detect2FA` from `src/browser/detector.ts`. -/
def detect2FA (page : Page) : DetectionResult :=
  match twoFAKeywords.find? (fun sel => page.locatorCount sel > 0) with
  | some sel =>
    { detected := true, type := .twofa,
      description := "Two-factor authentication or verification code required",
      element := some sel }
  | none => { detected := false, type := .twofa, description := "", element := none }

def fileInputSelector : String := "input[type=\"file\"]:visible"

/-- `uploadLabels` from `detectFileUpload`. -/
def uploadLabels : List String :=
  ["text*=\"Upload resume\"",
   "text*=\"Upload CV\"",
   "text*=\"Attach resume\"",
   "text*=\"Choose file\""]

/-- `detectFileUpload` from `src/browser/detector.ts`: a visible file input
must be present, and then some upload label must match. -/
def detectFileUpload (page : Page) : DetectionResult :=
  if page.locatorCount fileInputSelector > 0 then
    match uploadLabels.find? (fun sel => page.locatorCount sel > 0) with
    | some sel =>
      { detected := true, type := .file_upload,
        description := "File upload required (resume/CV or document)",
        element := some sel }
    | none => { detected := false, type := .file_upload, description := "", element := none }
  else { detected := false, type := .file_upload, description := "", element := none }

/-- `consentKeywords` from `detectConsent`. -/
def consentKeywords : List String :=
  ["text*=\"Equal Employment Opportunity\"",
   "text*=\"EEO\"",
   "text*=\"Voluntary Self-Identification\"",
   "text*=\"Demographics\"",
   "text*=\"I consent to\"",
   "text*=\"I agree to\"",
   "text*=\"Terms and Conditions\"",
   "text*=\"Privacy Policy\""]

def uncheckedCheckboxSelector : String := "input[type=\"checkbox\"]:not(:checked)"

/-- The `for` loop of `detectConsent`: for each matching consent keyword the
unchecked-checkbox count is re-queried; only a keyword match together with a
positive unchecked-checkbox count returns a detection. -/
def detectConsentLoop (page : Page) : List String → DetectionResult
  | [] => { detected := false, type := .consent, description := "", element := none }
  | sel :: rest =>
    if page.locatorCount sel > 0 then
      if page.locatorCount uncheckedCheckboxSelector > 0 then
        { detected := true, type := .consent,
          description := "Consent or EEO form requires review and confirmation",
          element := some sel }
      else detectConsentLoop page rest
    else detectConsentLoop page rest

/-- `detectConsent` from `src/browser/detector.ts`. -/
def detectConsent (page : Page) : DetectionResult :=
  detectConsentLoop page consentKeywords

/-- `detectHumanStep` from `src/browser/detector.ts`: the four category
checks in priority order; `none` models the `null` return. -/
def detectHumanStep (page : Page) : Option DetectionResult :=
  let captchaResult := detectCaptcha page
  if captchaResult.detected then some captchaResult
  else
    let twoFAResult := detect2FA page
    if twoFAResult.detected then some twoFAResult
    else
      let fileUploadResult := detectFileUpload page
      if fileUploadResult.detected then some fileUploadResult
      else
        let consentResult := detectConsent page
        if consentResult.detected then some consentResult
        else none

/-- The resolution test of the waiter's loop body:
`!currentResult || currentResult.type !== detectionResult.type`. -/
def pollResolved (prevType : HumanStepType) (currentResult : Option DetectionResult) : Bool :=
  match currentResult with
  | none => true
  | some r => r.type != prevType

/-- The `while (Date.now() - startTime < timeoutMs)` loop of
`waitForHumanStepResolution`, with the flow of time made explicit: `n` is
the index of the next page snapshot the poll observes, `elapsed` the
milliseconds since `startTime` (advancing by the 2000 ms
`page.waitForTimeout(2000)` per iteration).  Besides the source's boolean
it returns the snapshot index after the loop, which the workflow model
threads on to subsequent detector calls. -/
def resolutionLoop (pages : Nat → Page) (prevType : HumanStepType) (timeoutMs : Int)
    (n : Nat) (elapsed : Nat) : Bool × Nat :=
  if _h : (elapsed : Int) < timeoutMs then
    match detectHumanStep (pages n) with
    | none => (true, n + 1)
    | some currentResult =>
      if currentResult.type ≠ prevType then (true, n + 1)
      else resolutionLoop pages prevType timeoutMs (n + 1) (elapsed + 2000)
  else (false, n)
termination_by (timeoutMs - elapsed).toNat
decreasing_by omega

/-- `waitForHumanStepResolution` from `src/browser/detector.ts`, over a
stream of page snapshots; the default timeout is the source's 300000 ms
(5 minutes). -/
def waitForHumanStepResolution (pages : Nat → Page) (detectionResult : DetectionResult)
    (timeoutMs : Int := 300000) : Bool :=
  (resolutionLoop pages detectionResult.type timeoutMs 0 0).1

/-- `ApplicationStatus` from `src/types/index.ts`. -/
inductive ApplicationStatus where
  | queued
  | in_progress
  | paused
  | completed
  | failed
deriving DecidableEq, Repr

/-- The columns of an `applications` row that `updateApplicationStatus`
touches; timestamps are abstract `Nat` instants. -/
structure ApplicationRow where
  status : ApplicationStatus
  startedAt : Option Nat
  completedAt : Option Nat
deriving DecidableEq, Repr

/-- `updateApplicationStatus` from `src/db/client.ts` (`now` being
`CURRENT_TIMESTAMP`): the status column is always set;
`started_at = COALESCE(started_at, CURRENT_TIMESTAMP)` is added for
`in_progress`/`paused`, `completed_at = CURRENT_TIMESTAMP` for
`completed`/`failed`. -/
def updateApplicationStatus (now : Nat) (status : ApplicationStatus)
    (row : ApplicationRow) : ApplicationRow :=
  { status := status,
    startedAt :=
      if status = .in_progress ∨ status = .paused then
        match row.startedAt with
        | some t => some t
        | none => some now
      else row.startedAt,
    completedAt :=
      if status = .completed ∨ status = .failed then some now
      else row.completedAt }

/-- A sequence of `updateApplicationStatus` calls, each with its
timestamp, applied in order. -/
def applyUpdates (row : ApplicationRow) : List (Nat × ApplicationStatus) → ApplicationRow
  | [] => row
  | (t, s) :: rest => applyUpdates (updateApplicationStatus t s row) rest

/-- The timestamp of the first update whose status is `in_progress` or
`paused` — the only updates that can populate an empty `started_at`. -/
def firstStartTime : List (Nat × ApplicationStatus) → Option Nat
  | [] => none
  | (t, s) :: rest =>
    if s = .in_progress ∨ s = .paused then some t else firstStartTime rest

/-- The timestamp of the last update whose status is `completed` or
`failed` — each such update overwrites `completed_at`. -/
def lastTerminalTime : List (Nat × ApplicationStatus) → Option Nat
  | [] => none
  | (t, s) :: rest =>
    match lastTerminalTime rest with
    | some u => some u
    | none => if s = .completed ∨ s = .failed then some t else none

/-- `StepType` from `src/types/index.ts`. -/
inductive StepType where
  | navigation
  | form_fill
  | human_step_detected
  | human_step_resolved
  | draft_generated
  | answer_inserted
  | submission
  | error
deriving DecidableEq, Repr

/-- The notifications the workflow fires (`src/browser/notifier.ts`); all
are fire-and-forget, so only the event itself is recorded. -/
inductive NotificationEvent where
  | progress (status : String)
  | humanStep (t : HumanStepType)
  | complete (success : Bool)
deriving DecidableEq, Repr

/-- The observable effects of one workflow run: the application row, the
`application_steps` inserts (step type and description), the audit-log
inserts (action type and `userConfirmed`), and the notifications fired,
each list in write order. -/
structure RunState where
  row : ApplicationRow
  steps : List (StepType × String)
  audits : List (String × Bool)
  notifications : List NotificationEvent
deriving Repr

def addStep (st : RunState) (t : StepType) (d : String) : RunState :=
  { st with steps := st.steps ++ [(t, d)] }

def setStatus (st : RunState) (now : Nat) (s : ApplicationStatus) : RunState :=
  { st with row := updateApplicationStatus now s st.row }

def notifyEvt (st : RunState) (e : NotificationEvent) : RunState :=
  { st with notifications := st.notifications ++ [e] }

def addAudit (st : RunState) (action : String) (userConfirmed : Bool) : RunState :=
  { st with audits := st.audits ++ [(action, userConfirmed)] }

/-- The environment of one `runApplicationWorkflow` call: the job URL from
the `ApplicationContext`, whether `navigateToUrl` throws (and with which
message), and the stream of page snapshots consumed by successive
`detectHumanStep` calls. -/
structure WorkflowEnv where
  jobUrl : String
  navigationError : Option String
  pages : Nat → Page

/-- `{ success, message }`, the result type of `runApplicationWorkflow`. -/
structure WorkflowResult where
  success : Bool
  message : String
deriving DecidableEq, Repr

/-- Outcome of the main monitoring loop: `earlyResult` is `some r` when the
loop body executed `return r` (waiter timeout), `none` when the loop exited
normally; `ctr` is the snapshot index after the loop and `loops` the number
of iterations executed. -/
structure LoopOut where
  earlyResult : Option WorkflowResult
  state : RunState
  ctr : Nat
  loops : Nat

def maxLoops : Nat := 20

/-- The main `while (continueApplication && loopCount < maxLoops)` loop of
`runApplicationWorkflow`, by recursion on the remaining iteration budget
(`fuel = maxLoops - loopCount`).  A detected human step writes the
`human_step_detected` step, pauses the run, notifies, audits with
`userConfirmed=false` and invokes the waiter (whose polls consume
snapshots `n+1, n+2, …`); on timeout the loop returns the failure result
after re-setting `paused`, on resolution it writes `human_step_resolved`,
resumes `in_progress`, audits with `userConfirmed=true` and continues.  No
detection clears `continueApplication`, exiting the loop. -/
def workflowLoop (env : WorkflowEnv) : Nat → Nat → RunState → LoopOut
  | 0, n, st => { earlyResult := none, state := st, ctr := n, loops := 0 }
  | fuel + 1, n, st =>
    match detectHumanStep (env.pages n) with
    | some humanStep =>
      let st1 := addStep st .human_step_detected
        (humanStepTypeStr humanStep.type ++ ": " ++ humanStep.description)
      let st2 := setStatus st1 n .paused
      let st3 := notifyEvt st2 (.humanStep humanStep.type)
      let st4 := addAudit st3 "human_step_pause" false
      let w := resolutionLoop env.pages humanStep.type 300000 (n + 1) 0
      if w.1 then
        let st5 := addStep st4 .human_step_resolved
          (humanStepTypeStr humanStep.type ++ " resolved")
        let st6 := setStatus st5 w.2 .in_progress
        let st7 := addAudit st6 "human_step_resume" true
        let out := workflowLoop env fuel w.2 st7
        { out with loops := out.loops + 1 }
      else
        let st5 := setStatus st4 w.2 .paused
        { earlyResult := some
            { success := false,
              message := "Timeout waiting for " ++ humanStepTypeStr humanStep.type
                ++ " resolution" },
          state := st5, ctr := w.2, loops := 1 }
    | none => { earlyResult := none, state := st, ctr := n + 1, loops := 1 }

/-- The state after the successful prologue of the `try` block: status set
to `in_progress`, the `navigation` step written, navigation succeeded and
the progress notification fired. -/
def initialNavState (env : WorkflowEnv) (st0 : RunState) : RunState :=
  notifyEvt
    (addStep (setStatus st0 0 .in_progress) .navigation ("Navigating to " ++ env.jobUrl))
    (.progress "Page loaded")

/-- `runApplicationWorkflow` from the browser automation module.  The
`try` block sets `in_progress`, writes the `navigation` step and navigates;
a navigation exception reaches the `catch` block, which writes an `error`
step with the message, sets `failed`, fires a failure notification and
returns `{success:false, message}`.  Otherwise the main loop runs; a waiter
timeout's early return is forwarded, and a normal loop exit writes the
`submission` step, sets `completed`, fires a success notification and
returns `{success:true}`. -/
def runApplicationWorkflow (env : WorkflowEnv) (st0 : RunState) :
    WorkflowResult × RunState :=
  let st1 := setStatus st0 0 .in_progress
  let st2 := addStep st1 .navigation ("Navigating to " ++ env.jobUrl)
  match env.navigationError with
  | some msg =>
    let stE := addStep st2 .error ("Error: " ++ msg)
    let stF := setStatus stE 0 .failed
    let stG := notifyEvt stF (.complete false)
    ({ success := false, message := msg }, stG)
  | none =>
    let st3 := initialNavState env st0
    let out := workflowLoop env maxLoops 0 st3
    match out.earlyResult with
    | some res => (res, out.state)
    | none =>
      let st4 := addStep out.state .submission
        "Application workflow completed (manual submission required)"
      let st5 := setStatus st4 out.ctr .completed
      let st6 := notifyEvt st5 (.complete true)
      ({ success := true, message := "Application workflow completed successfully" }, st6)

/-! Concrete pages and environments used to exercise the definitions. -/

/-- A page with no matching indicator at all. -/
def blankPage : Page :=
  { frameBodyCount := fun _ => 0, locatorCount := fun _ => 0 }

/-- A page whose only indicator is a reCAPTCHA iframe. -/
def captchaPage : Page :=
  { frameBodyCount := fun s => if s = recaptchaSelector then 1 else 0,
    locatorCount := fun _ => 0 }

/-- A page whose only indicator is the literal `2FA` text. -/
def twofaPage : Page :=
  { frameBodyCount := fun _ => 0,
    locatorCount := fun s => if s = "text*=\"2FA\"" then 1 else 0 }

/-- A page with a reCAPTCHA iframe and, elsewhere on the page, 2FA text and
consent text with an unchecked checkbox. -/
def mixedPage : Page :=
  { frameBodyCount := fun s => if s = recaptchaSelector then 1 else 0,
    locatorCount := fun s =>
      if s = "text*=\"2FA\"" ∨ s = "text*=\"I consent to\"" ∨ s = uncheckedCheckboxSelector
      then 1 else 0 }

/-! Helper lemmas about the detectors. -/

theorem detectCaptcha_type (page : Page) : (detectCaptcha page).type = .captcha := by
  unfold detectCaptcha
  split
  · rfl
  · split
    · rfl
    · split <;> rfl

theorem detect2FA_type (page : Page) : (detect2FA page).type = .twofa := by
  unfold detect2FA
  split <;> rfl

theorem detectCaptcha_detected_of_frame (page : Page)
    (h : page.frameBodyCount recaptchaSelector > 0 ∨ page.frameBodyCount hcaptchaSelector > 0) :
    (detectCaptcha page).detected = true := by
  unfold detectCaptcha
  rcases h with h | h
  · simp [h]
  · split
    · rfl
    · simp [h]

theorem detectConsentLoop_detected_iff (page : Page) (ks : List String) :
    (detectConsentLoop page ks).detected = true ↔
      ((∃ sel ∈ ks, page.locatorCount sel > 0) ∧
        page.locatorCount uncheckedCheckboxSelector > 0) := by
  induction ks with
  | nil => simp [detectConsentLoop]
  | cons sel rest ih =>
    simp only [detectConsentLoop]
    by_cases h1 : page.locatorCount sel > 0
    · by_cases h2 : page.locatorCount uncheckedCheckboxSelector > 0
      · simp [h1, h2]
      · simp [h1, h2, ih]
    · simp [h1, ih]

/-- C2: `detectHumanStep` evaluates the category checks in the fixed
priority order CAPTCHA, 2FA, file upload, consent, returning the first
positive match; and any page with a recognized CAPTCHA iframe (reCAPTCHA or
hCaptcha source substring) yields a result of category `captcha`, whatever
other indicators the page carries. -/
theorem detectHumanStep_priority_order (page : Page) :
    ((detectCaptcha page).detected = true →
      detectHumanStep page = some (detectCaptcha page)) ∧
    ((detectCaptcha page).detected = false → (detect2FA page).detected = true →
      detectHumanStep page = some (detect2FA page)) ∧
    ((detectCaptcha page).detected = false → (detect2FA page).detected = false →
      (detectFileUpload page).detected = true →
      detectHumanStep page = some (detectFileUpload page)) ∧
    ((detectCaptcha page).detected = false → (detect2FA page).detected = false →
      (detectFileUpload page).detected = false → (detectConsent page).detected = true →
      detectHumanStep page = some (detectConsent page)) ∧
    ((page.frameBodyCount recaptchaSelector > 0 ∨ page.frameBodyCount hcaptchaSelector > 0) →
      ∃ r, detectHumanStep page = some r ∧ r.type = HumanStepType.captcha) := by
  have h1 : (detectCaptcha page).detected = true →
      detectHumanStep page = some (detectCaptcha page) := by
    intro h
    simp [detectHumanStep, h]
  refine ⟨h1, ?_, ?_, ?_, ?_⟩
  · intro hc h2
    simp [detectHumanStep, hc, h2]
  · intro hc h2 hf
    simp [detectHumanStep, hc, h2, hf]
  · intro hc h2 hf hcs
    simp [detectHumanStep, hc, h2, hf, hcs]
  · intro h
    exact ⟨detectCaptcha page, h1 (detectCaptcha_detected_of_frame page h),
      detectCaptcha_type page⟩

/-- C2 witness: on a page with a reCAPTCHA iframe together with 2FA text,
consent text and an unchecked checkbox, the result has category
`captcha`, even though the 2FA and consent checks would each match. -/
theorem detectHumanStep_priority_order_witness :
    (∃ r, detectHumanStep mixedPage = some r ∧ r.type = HumanStepType.captcha) ∧
    (detect2FA mixedPage).detected = true ∧
    (detectConsent mixedPage).detected = true := by
  refine ⟨(detectHumanStep_priority_order mixedPage).2.2.2.2 (Or.inl (by decide)),
    by decide, by decide⟩

/-- C5 (amended): on a page where no check matches — in particular a blank
page with every query count zero — `detectHumanStep` returns `null`
(`none`); no `DetectionResult` value is produced at all. -/
theorem detectHumanStep_blank_none (page : Page)
    (hf : ∀ s, page.frameBodyCount s = 0) (hl : ∀ s, page.locatorCount s = 0) :
    detectHumanStep page = none := by
  have hc : (detectCaptcha page).detected = false := by
    simp [detectCaptcha, hf, hl, captchaKeywords]
  have h2 : (detect2FA page).detected = false := by
    simp [detect2FA, hl, twoFAKeywords]
  have hfu : (detectFileUpload page).detected = false := by
    simp [detectFileUpload, hl]
  have hcs : (detectConsent page).detected = false := by
    rw [← Bool.not_eq_true, detectConsent, detectConsentLoop_detected_iff]
    simp [hl]
  simp [detectHumanStep, hc, h2, hfu, hcs]

/-- C5 witness: the amended theorem instantiated at the all-zero blank
page. -/
theorem detectHumanStep_blank_none_witness : detectHumanStep blankPage = none :=
  detectHumanStep_blank_none blankPage (fun _ => rfl) (fun _ => rfl)

/-- C5 counterexample: on the blank page the source returns `null` — there
is no `DetectionResult` return value at all, so in particular no
`{detected:false}` result (the code's `HumanStepType` also has no `none`
member; `null` plays that role). -/
theorem detectHumanStep_blank_no_result :
    detectHumanStep blankPage = none ∧
    ¬ ∃ r : DetectionResult, detectHumanStep blankPage = some r ∧ r.detected = false := by
  refine ⟨by decide, ?_⟩
  rintro ⟨r, hr, -⟩
  have h : detectHumanStep blankPage = none := by decide
  rw [h] at hr
  exact Option.noConfusion hr

/-- C6: consent detection fires exactly when some consent/EEO text phrase
matches and at least one unchecked checkbox is present; either condition
alone yields `detected:false`. -/
theorem detectConsent_detected_iff (page : Page) :
    (detectConsent page).detected = true ↔
      ((∃ sel ∈ consentKeywords, page.locatorCount sel > 0) ∧
        page.locatorCount uncheckedCheckboxSelector > 0) :=
  detectConsentLoop_detected_iff page consentKeywords

/-- C7: file-upload detection fires exactly when a visible file input is
present and some resume/CV upload-prompt phrase matches; a bare visible
file input alone yields `detected:false`. -/
theorem detectFileUpload_detected_iff (page : Page) :
    (detectFileUpload page).detected = true ↔
      (page.locatorCount fileInputSelector > 0 ∧
        ∃ sel ∈ uploadLabels, page.locatorCount sel > 0) := by
  by_cases h : page.locatorCount fileInputSelector > 0
  · simp only [detectFileUpload, if_pos h]
    cases hf : uploadLabels.find? (fun sel => page.locatorCount sel > 0) with
    | none =>
      have hall := List.find?_eq_none.mp hf
      simp only [decide_eq_true_eq] at hall
      simp only [h, true_and]
      constructor
      · intro hd
        exact absurd hd (by simp)
      · rintro ⟨sel, hmem, hsel⟩
        exact absurd hsel (hall sel hmem)
    | some sel =>
      have hmem := List.mem_of_find?_eq_some hf
      have hsel := List.find?_some hf
      simp only [decide_eq_true_eq] at hsel
      simp only [h, true_and]
      constructor
      · intro _
        exact ⟨sel, hmem, hsel⟩
      · intro _
        trivial
  · simp only [detectFileUpload, if_neg h]
    constructor
    · intro hd
      exact absurd hd (by simp)
    · rintro ⟨hin, -⟩
      exact absurd hin h

/-! The waiter's loop, characterised. -/

/-- The loop returns `true` exactly when some poll whose start still lies
inside the timeout window observes a resolved page (no detection, or a
category different from the previously detected one); polls are 2000 ms
apart. -/
theorem resolutionLoop_true_iff (pages : Nat → Page) (p : HumanStepType) (T : Int) :
    ∀ n elapsed, ((resolutionLoop pages p T n elapsed).1 = true ↔
      ∃ j : Nat, ((elapsed : Int) + 2000 * j < T ∧
        pollResolved p (detectHumanStep (pages (n + j))) = true)) := by
  intro n elapsed
  induction n, elapsed using resolutionLoop.induct pages p T with
  | case1 n elapsed h hd =>
    rw [resolutionLoop]
    simp only [dif_pos h, hd]
    constructor
    · intro _
      exact ⟨0, by simpa using h, by simp [pollResolved, hd]⟩
    · intro _
      trivial
  | case2 n elapsed h r hd hne =>
    rw [resolutionLoop]
    simp only [dif_pos h, hd, if_pos hne]
    constructor
    · intro _
      exact ⟨0, by simpa using h, by simp [pollResolved, hd, bne_iff_ne, hne]⟩
    · intro _
      trivial
  | case3 n elapsed h r hd hne ih =>
    rw [resolutionLoop]
    simp only [dif_pos h, hd, if_neg hne]
    rw [ih]
    have hr : r.type = p := by
      by_contra hc
      exact hne hc
    constructor
    · rintro ⟨j, hj1, hj2⟩
      refine ⟨j + 1, by push_cast at hj1 ⊢; omega, ?_⟩
      have hidx : n + (j + 1) = n + 1 + j := by omega
      rw [hidx]
      exact hj2
    · rintro ⟨j, hj1, hj2⟩
      cases j with
      | zero =>
        rw [Nat.add_zero, hd] at hj2
        simp [pollResolved, hr] at hj2
      | succ j' =>
        refine ⟨j', ⟨by push_cast at hj1 ⊢; omega, ?_⟩⟩
        have hidx : n + 1 + j' = n + (j' + 1) := by omega
        rw [hidx]
        exact hj2
  | case4 n elapsed h =>
    rw [resolutionLoop]
    simp only [dif_neg h]
    constructor
    · intro hb
      exact absurd hb (by simp)
    · rintro ⟨j, hj1, -⟩
      refine absurd hj1 ?_
      omega

/-- Shifting the start index of the loop is the same as shifting the
snapshot stream. -/
theorem resolutionLoop_fst_shift (pages : Nat → Page) (p : HumanStepType) (T : Int)
    (off : Nat) : ∀ j elapsed,
    (resolutionLoop pages p T (off + j) elapsed).1 =
      (resolutionLoop (fun k => pages (off + k)) p T j elapsed).1 := by
  intro j elapsed
  apply Bool.eq_iff_iff.mpr
  rw [resolutionLoop_true_iff, resolutionLoop_true_iff]
  constructor
  · rintro ⟨i, hi1, hi2⟩
    refine ⟨i, hi1, ?_⟩
    simpa [Nat.add_assoc] using hi2
  · rintro ⟨i, hi1, hi2⟩
    refine ⟨i, hi1, ?_⟩
    simpa [Nat.add_assoc] using hi2

/-- If no poll ever observes a resolved page, the loop can only time out. -/
theorem resolutionLoop_false_of_never_resolved (pages : Nat → Page) (p : HumanStepType)
    (T : Int) (n : Nat) (h : ∀ k, pollResolved p (detectHumanStep (pages k)) = false) :
    (resolutionLoop pages p T n 0).1 = false := by
  cases hb : (resolutionLoop pages p T n 0).1 with
  | false => rfl
  | true =>
    obtain ⟨j, -, hj⟩ := (resolutionLoop_true_iff pages p T n 0).mp hb
    rw [h] at hj
    exact absurd hj (by simp)

/-- C1: `waitForHumanStepResolution` polls `detectHumanStep` every 2000 ms
and returns `true` exactly when some poll inside the timeout window
observes no detection or a category different from the prior detection
(`pollResolved`); with no such poll it returns `false` once the timeout
(default 300000 ms) elapses. -/
theorem waitForHumanStepResolution_true_iff (pages : Nat → Page)
    (prev : DetectionResult) (timeoutMs : Int) :
    (waitForHumanStepResolution pages prev timeoutMs = true ↔
      ∃ k : Nat, ((2000 * k : Int) < timeoutMs ∧
        pollResolved prev.type (detectHumanStep (pages k)) = true)) ∧
    waitForHumanStepResolution pages prev = waitForHumanStepResolution pages prev 300000 := by
  refine ⟨?_, rfl⟩
  have h := resolutionLoop_true_iff pages prev.type timeoutMs 0 0
  simpa [waitForHumanStepResolution] using h

/-- C10: with a zero or negative timeout the deadline test fails before the
first poll, so the waiter returns `false` for every snapshot stream — even
one on which the step is already resolved. -/
theorem waitForHumanStepResolution_nonpos_timeout (pages : Nat → Page)
    (prev : DetectionResult) (timeoutMs : Int) (h : timeoutMs ≤ 0) :
    waitForHumanStepResolution pages prev timeoutMs = false := by
  rw [waitForHumanStepResolution, resolutionLoop]
  rw [dif_neg (by push_cast; omega)]

/-- The detection `detectHumanStep` reports on `captchaPage`. -/
def recaptchaDetection : DetectionResult :=
  { detected := true, type := .captcha,
    description := "reCAPTCHA verification required",
    element := some recaptchaSelector }

/-- C10 witness: timeout 0, on a stream of blank pages whose very first
poll would count as resolved — the waiter still returns `false`. -/
theorem waitForHumanStepResolution_nonpos_timeout_witness :
    pollResolved recaptchaDetection.type (detectHumanStep blankPage) = true ∧
    waitForHumanStepResolution (fun _ => blankPage) recaptchaDetection 0 = false :=
  ⟨by decide,
    waitForHumanStepResolution_nonpos_timeout (fun _ => blankPage) recaptchaDetection 0
      (by decide)⟩

/-! `updateApplicationStatus` and the run timestamps. -/

/-- A populated `started_at` survives any later update unchanged. -/
theorem applyUpdates_startedAt_some :
    ∀ (updates : List (Nat × ApplicationStatus)) (row : ApplicationRow) (t : Nat),
      row.startedAt = some t → (applyUpdates row updates).startedAt = some t := by
  intro updates
  induction updates with
  | nil =>
    intro row t h
    simpa [applyUpdates] using h
  | cons u rest ih =>
    intro row t h
    obtain ⟨tu, su⟩ := u
    simp only [applyUpdates]
    apply ih
    by_cases hc : su = .in_progress ∨ su = .paused
    · simp [updateApplicationStatus, hc, h]
    · simp [updateApplicationStatus, hc, h]

/-- An empty `started_at` is populated by the first `in_progress`/`paused`
update, if any, and by nothing else. -/
theorem applyUpdates_startedAt_none :
    ∀ (updates : List (Nat × ApplicationStatus)) (row : ApplicationRow),
      row.startedAt = none →
      (applyUpdates row updates).startedAt = firstStartTime updates := by
  intro updates
  induction updates with
  | nil =>
    intro row h
    simpa [applyUpdates, firstStartTime] using h
  | cons u rest ih =>
    intro row h
    obtain ⟨tu, su⟩ := u
    by_cases hc : su = .in_progress ∨ su = .paused
    · simp only [applyUpdates, firstStartTime, if_pos hc]
      apply applyUpdates_startedAt_some
      simp [updateApplicationStatus, hc, h]
    · simp only [applyUpdates, firstStartTime, if_neg hc]
      apply ih
      simp [updateApplicationStatus, hc, h]

/-- `completed_at` after a sequence of updates is the timestamp of the last
`completed`/`failed` update, the prior value if there is none: every
terminal update overwrites it. -/
theorem applyUpdates_completedAt :
    ∀ (updates : List (Nat × ApplicationStatus)) (row : ApplicationRow),
      (applyUpdates row updates).completedAt =
        match lastTerminalTime updates with
        | some t => some t
        | none => row.completedAt := by
  intro updates
  induction updates with
  | nil =>
    intro row
    simp [applyUpdates, lastTerminalTime]
  | cons u rest ih =>
    intro row
    obtain ⟨tu, su⟩ := u
    simp only [applyUpdates, lastTerminalTime]
    rw [ih]
    cases hl : lastTerminalTime rest with
    | some u' => simp
    | none =>
      by_cases hc : su = .completed ∨ su = .failed
      · simp [hc, updateApplicationStatus]
      · simp [hc, updateApplicationStatus]

/-- C9 counterexample: starting from a fresh row, the call sequence
`completed` at time 1 then `failed` at time 2 sets `completedAt` twice —
it is `some 1` after the first call and overwritten to `some 2` by the
second, so `completedAt` is not set at most once. -/
theorem updateApplicationStatus_completedAt_overwritten :
    (applyUpdates ⟨.queued, none, none⟩ [(1, .completed)]).completedAt = some 1 ∧
    (applyUpdates ⟨.queued, none, none⟩ [(1, .completed), (2, .failed)]).completedAt = some 2 ∧
    (some 1 : Option Nat) ≠ some 2 := by
  refine ⟨by decide, by decide, by decide⟩

/-- C9 (amended): over every sequence of `updateApplicationStatus` calls,
`startedAt` is set at most once — populated by the first transition into
`in_progress` or `paused` and never changed afterwards — while
`completedAt` is overwritten on every transition to `completed` or
`failed`, so it ends as the timestamp of the last terminal transition
rather than being set at most once. -/
theorem applicationRun_timestamp_discipline (row : ApplicationRow)
    (updates : List (Nat × ApplicationStatus)) :
    (∀ t, row.startedAt = some t → (applyUpdates row updates).startedAt = some t) ∧
    (row.startedAt = none →
      (applyUpdates row updates).startedAt = firstStartTime updates) ∧
    (applyUpdates row updates).completedAt =
      (match lastTerminalTime updates with
       | some t => some t
       | none => row.completedAt) :=
  ⟨fun t h => applyUpdates_startedAt_some updates row t h,
   fun h => applyUpdates_startedAt_none updates row h,
   applyUpdates_completedAt updates row⟩

/-- C9 witness: a row whose `startedAt` is already `some 5` keeps it across
a `paused` and a `completed` update, and a fresh row gets `startedAt` from
its first `in_progress` update. -/
theorem applicationRun_timestamp_discipline_witness :
    (applyUpdates ⟨.in_progress, some 5, none⟩ [(7, .paused), (9, .completed)]).startedAt
        = some 5 ∧
    (applyUpdates ⟨.queued, none, none⟩ [(3, .in_progress), (9, .paused)]).startedAt
        = firstStartTime [(3, .in_progress), (9, .paused)] :=
  ⟨(applicationRun_timestamp_discipline ⟨.in_progress, some 5, none⟩
      [(7, .paused), (9, .completed)]).1 5 rfl,
   (applicationRun_timestamp_discipline ⟨.queued, none, none⟩
      [(3, .in_progress), (9, .paused)]).2.1 rfl⟩

/-! The workflow controller. -/

/-- A run state with nothing recorded yet and a fresh `queued` row. -/
def emptyRunState : RunState :=
  { row := { status := .queued, startedAt := none, completedAt := none },
    steps := [], audits := [], notifications := [] }

/-- An environment whose navigation throws. -/
def navFailEnv : WorkflowEnv :=
  { jobUrl := "https://example.com/job/1",
    navigationError := some "net::ERR_TIMED_OUT",
    pages := fun _ => blankPage }

/-- C3: an exception raised during the run (navigation is the throwing
operation of the embedding) is caught: the function writes an `error` step
with the exception message, sets the run status to `failed`, fires a
failure notification, and returns `{success:false, message}` — a
structured result, not a propagated exception (the embedding of
`runApplicationWorkflow` is a total function into `WorkflowResult`). -/
theorem runApplicationWorkflow_catches_exceptions (env : WorkflowEnv) (st0 : RunState)
    (msg : String) (h : env.navigationError = some msg) :
    (runApplicationWorkflow env st0).1 = { success := false, message := msg } ∧
    (runApplicationWorkflow env st0).2.steps =
      st0.steps ++ [(StepType.navigation, "Navigating to " ++ env.jobUrl),
                    (StepType.error, "Error: " ++ msg)] ∧
    (runApplicationWorkflow env st0).2.row.status = ApplicationStatus.failed ∧
    (runApplicationWorkflow env st0).2.notifications =
      st0.notifications ++ [NotificationEvent.complete false] := by
  simp [runApplicationWorkflow, h, addStep, setStatus, notifyEvt, updateApplicationStatus]

/-- C3 witness: a run whose navigation throws `net::ERR_TIMED_OUT` returns
the structured failure and ends `failed` with the error step recorded. -/
theorem runApplicationWorkflow_catches_exceptions_witness :
    (runApplicationWorkflow navFailEnv emptyRunState).1 =
      { success := false, message := "net::ERR_TIMED_OUT" } ∧
    (runApplicationWorkflow navFailEnv emptyRunState).2.row.status =
      ApplicationStatus.failed :=
  ⟨(runApplicationWorkflow_catches_exceptions navFailEnv emptyRunState _ rfl).1,
   (runApplicationWorkflow_catches_exceptions navFailEnv emptyRunState _ rfl).2.2.1⟩

/-- C4: when a detected human step times out in the waiter, the loop
returns `{success:false}` immediately with a message naming the step type,
the run status is left `paused` (not `failed`), and no
`human_step_resolved` step is written for that detection; the second
conjunct instantiates this across the public boundary for a run whose
first monitoring cycle detects the step. -/
theorem workflow_timeout_leaves_paused (env : WorkflowEnv) (st0 st : RunState)
    (fuel n : Nat) (hs : DetectionResult) :
    (detectHumanStep (env.pages n) = some hs →
      waitForHumanStepResolution (fun k => env.pages (n + 1 + k)) hs = false →
      (workflowLoop env (fuel + 1) n st).earlyResult =
        some { success := false,
               message := "Timeout waiting for " ++ humanStepTypeStr hs.type ++ " resolution" } ∧
      (workflowLoop env (fuel + 1) n st).state.row.status = ApplicationStatus.paused ∧
      (workflowLoop env (fuel + 1) n st).state.steps =
        st.steps ++ [(StepType.human_step_detected,
          humanStepTypeStr hs.type ++ ": " ++ hs.description)]) ∧
    (env.navigationError = none →
      detectHumanStep (env.pages 0) = some hs →
      waitForHumanStepResolution (fun k => env.pages (1 + k)) hs = false →
      (runApplicationWorkflow env st0).1 =
        { success := false,
          message := "Timeout waiting for " ++ humanStepTypeStr hs.type ++ " resolution" } ∧
      (runApplicationWorkflow env st0).2.row.status = ApplicationStatus.paused ∧
      (runApplicationWorkflow env st0).2.steps =
        st0.steps ++ [(StepType.navigation, "Navigating to " ++ env.jobUrl),
          (StepType.human_step_detected,
            humanStepTypeStr hs.type ++ ": " ++ hs.description)] ∧
      (∀ d, (StepType.human_step_resolved, d) ∈ (runApplicationWorkflow env st0).2.steps →
        (StepType.human_step_resolved, d) ∈ st0.steps)) := by
  have H : ∀ (fuel' n' : Nat) (st' : RunState),
      detectHumanStep (env.pages n') = some hs →
      waitForHumanStepResolution (fun k => env.pages (n' + 1 + k)) hs = false →
      (workflowLoop env (fuel' + 1) n' st').earlyResult =
        some { success := false,
               message := "Timeout waiting for " ++ humanStepTypeStr hs.type ++ " resolution" } ∧
      (workflowLoop env (fuel' + 1) n' st').state.row.status = ApplicationStatus.paused ∧
      (workflowLoop env (fuel' + 1) n' st').state.steps =
        st'.steps ++ [(StepType.human_step_detected,
          humanStepTypeStr hs.type ++ ": " ++ hs.description)] := by
    intro fuel' n' st' hdet hwait
    have hw : (resolutionLoop env.pages hs.type 300000 (n' + 1) 0).1 = false := by
      have hshift := resolutionLoop_fst_shift env.pages hs.type 300000 (n' + 1) 0 0
      rw [waitForHumanStepResolution] at hwait
      exact hshift.trans hwait
    simp only [workflowLoop, hdet, hw, Bool.false_eq_true, if_false, addStep, setStatus,
      notifyEvt, addAudit, updateApplicationStatus]
    exact ⟨trivial, trivial, trivial⟩
  refine ⟨H fuel n st, ?_⟩
  intro hnav hdet hwait
  have h19 : maxLoops = 19 + 1 := rfl
  obtain ⟨hEarly, hStatus, hSteps⟩ :=
    H 19 0 (initialNavState env st0) hdet hwait
  have hInit : (initialNavState env st0).steps =
      st0.steps ++ [(StepType.navigation, "Navigating to " ++ env.jobUrl)] := by
    simp [initialNavState, addStep, setStatus, notifyEvt]
  have hRun : runApplicationWorkflow env st0 =
      ({ success := false,
         message := "Timeout waiting for " ++ humanStepTypeStr hs.type ++ " resolution" },
       (workflowLoop env (19 + 1) 0 (initialNavState env st0)).state) := by
    rw [runApplicationWorkflow, hnav]
    simp only [h19, hEarly]
  refine ⟨by rw [hRun], by rw [hRun]; exact hStatus, ?_, ?_⟩
  · rw [hRun]
    simp only [hSteps, hInit, List.append_assoc]
    rfl
  · intro d hd
    rw [hRun] at hd
    simp only [hSteps, hInit, List.append_assoc] at hd
    rcases List.mem_append.mp hd with hmem | hmem
    · exact hmem
    · simp at hmem

/-- An environment whose page shows a reCAPTCHA on every snapshot — the
step never clears. -/
def neverClearEnv : WorkflowEnv :=
  { jobUrl := "https://example.com/job/1",
    navigationError := none,
    pages := fun _ => captchaPage }

theorem detectHumanStep_captchaPage :
    detectHumanStep captchaPage = some recaptchaDetection := by decide

/-- C4 witness: a run whose page keeps its CAPTCHA forever returns
`success:false` with a message naming `captcha`, and its status stays
`paused`. -/
theorem workflow_timeout_leaves_paused_witness :
    (runApplicationWorkflow neverClearEnv emptyRunState).1.success = false ∧
    (runApplicationWorkflow neverClearEnv emptyRunState).1.message =
      "Timeout waiting for captcha resolution" ∧
    (runApplicationWorkflow neverClearEnv emptyRunState).2.row.status =
      ApplicationStatus.paused := by
  have hwait : waitForHumanStepResolution (fun k => neverClearEnv.pages (1 + k))
      recaptchaDetection = false := by
    rw [waitForHumanStepResolution]
    exact resolutionLoop_false_of_never_resolved _ _ _ 0 (fun _ =>
      (by decide :
        pollResolved recaptchaDetection.type (detectHumanStep captchaPage) = false))
  obtain ⟨h1, h2, -, -⟩ :=
    (workflow_timeout_leaves_paused neverClearEnv emptyRunState emptyRunState 0 0
      recaptchaDetection).2 rfl (by decide) hwait
  refine ⟨by rw [h1], ?_, h2⟩
  rw [h1]
  decide

/-- C8: the main monitoring loop executes at most its iteration budget —
20 iterations at the `maxLoops` ceiling — for every page behaviour (the
embedding is total, so the run always terminates); and whenever the loop
exits without an early failure return, the run appends a `submission`
step, sets status `completed` and returns `{success:true}`. -/
theorem workflow_loop_ceiling (env : WorkflowEnv) (st0 : RunState) :
    (∀ fuel n st, (workflowLoop env fuel n st).loops ≤ fuel) ∧
    maxLoops = 20 ∧
    (env.navigationError = none →
      (workflowLoop env maxLoops 0 (initialNavState env st0)).earlyResult = none →
      (runApplicationWorkflow env st0).1 =
        { success := true, message := "Application workflow completed successfully" } ∧
      (runApplicationWorkflow env st0).2.row.status = ApplicationStatus.completed ∧
      (runApplicationWorkflow env st0).2.steps =
        (workflowLoop env maxLoops 0 (initialNavState env st0)).state.steps ++
          [(StepType.submission,
            "Application workflow completed (manual submission required)")]) := by
  refine ⟨?_, rfl, ?_⟩
  · intro fuel
    induction fuel with
    | zero =>
      intro n st
      simp [workflowLoop]
    | succ f ih =>
      intro n st
      simp only [workflowLoop]
      cases hdet : detectHumanStep (env.pages n) with
      | none => simp
      | some hs =>
        by_cases hw : (resolutionLoop env.pages hs.type 300000 (n + 1) 0).1
        · simp only [hw, if_true]
          exact Nat.succ_le_succ (ih _ _)
        · simp only [Bool.not_eq_true] at hw
          simp only [hw, Bool.false_eq_true, if_false]
          exact Nat.succ_le_succ (Nat.zero_le f)
  · intro hnav hexit
    have hRun : runApplicationWorkflow env st0 =
        ({ success := true, message := "Application workflow completed successfully" },
         notifyEvt
           (setStatus
             (addStep (workflowLoop env maxLoops 0 (initialNavState env st0)).state
               .submission "Application workflow completed (manual submission required)")
             (workflowLoop env maxLoops 0 (initialNavState env st0)).ctr .completed)
           (.complete true)) := by
      rw [runApplicationWorkflow, hnav]
      simp only [hexit]
    refine ⟨by rw [hRun], ?_, ?_⟩
    · rw [hRun]
      simp [notifyEvt, setStatus, updateApplicationStatus]
    · rw [hRun]
      simp [notifyEvt, setStatus, addStep]

/-- The detection `detectHumanStep` reports on `twofaPage`. -/
def twofaDetection : DetectionResult :=
  { detected := true, type := .twofa,
    description := "Two-factor authentication or verification code required",
    element := some "text*=\"2FA\"" }

theorem detectHumanStep_twofaPage :
    detectHumanStep twofaPage = some twofaDetection := by decide

/-- A pathological page: every even-numbered snapshot shows a CAPTCHA,
every odd-numbered snapshot a different human step (2FA), so each
monitoring cycle detects a step that the waiter's very first poll counts
as resolved. -/
def pathPages : Nat → Page :=
  fun k => if k % 2 = 0 then captchaPage else twofaPage

def pathEnv : WorkflowEnv :=
  { jobUrl := "https://example.com/job/1",
    navigationError := none,
    pages := pathPages }

/-- On the pathological page, a waiter started at an odd snapshot index
resolves at its first poll (the category changed). -/
theorem pathEnv_waiter_first_poll (n : Nat) (h : n % 2 = 0) :
    resolutionLoop pathPages .captcha 300000 (n + 1) 0 = (true, n + 1 + 1) := by
  rw [resolutionLoop]
  rw [dif_pos (by norm_num)]
  have hp : pathPages (n + 1) = twofaPage := by
    simp only [pathPages]
    rw [if_neg (by omega)]
  rw [hp, detectHumanStep_twofaPage]
  simp [twofaDetection]

/-- On the pathological page the monitoring loop never returns early and
burns its whole iteration budget. -/
theorem pathEnv_loop_runs_full : ∀ (fuel n : Nat) (st : RunState), n % 2 = 0 →
    (workflowLoop pathEnv fuel n st).earlyResult = none ∧
    (workflowLoop pathEnv fuel n st).loops = fuel := by
  intro fuel
  induction fuel with
  | zero =>
    intro n st _
    exact ⟨rfl, rfl⟩
  | succ f ih =>
    intro n st h
    have hp : pathEnv.pages n = captchaPage := by
      show pathPages n = captchaPage
      simp only [pathPages]
      rw [if_pos h]
    have hdet : detectHumanStep (pathEnv.pages n) = some recaptchaDetection := by
      rw [hp, detectHumanStep_captchaPage]
    have hw : resolutionLoop pathEnv.pages recaptchaDetection.type 300000 (n + 1) 0 =
        (true, n + 1 + 1) := pathEnv_waiter_first_poll n h
    simp only [workflowLoop, hdet, hw, if_true]
    refine ⟨(ih _ _ (by omega)).1, ?_⟩
    rw [(ih _ _ (by omega)).2]

/-- C8 witness: the pathological detect-then-instantly-clear page runs the
loop to the full 20-iteration ceiling, terminates, records the
`submission` step and completes with `{success:true}`. -/
theorem workflow_loop_ceiling_witness :
    (workflowLoop pathEnv maxLoops 0 (initialNavState pathEnv emptyRunState)).loops = 20 ∧
    (workflowLoop pathEnv maxLoops 0 (initialNavState pathEnv emptyRunState)).loops ≤ 20 ∧
    (runApplicationWorkflow pathEnv emptyRunState).1 =
      { success := true, message := "Application workflow completed successfully" } ∧
    (runApplicationWorkflow pathEnv emptyRunState).2.row.status =
      ApplicationStatus.completed := by
  have hfull := pathEnv_loop_runs_full maxLoops 0
    (initialNavState pathEnv emptyRunState) rfl
  have h := workflow_loop_ceiling pathEnv emptyRunState
  have hdone := h.2.2 rfl hfull.1
  exact ⟨hfull.2, h.1 maxLoops 0 (initialNavState pathEnv emptyRunState),
    hdone.1, hdone.2.1⟩

/-- A stubbed page run that still shows the CAPTCHA at polls 0 and 1 and is
clear from poll 2 on. -/
def clearsAtTwoPages : Nat → Page :=
  fun k => if k < 2 then captchaPage else blankPage

/-- C1 witness: with the detector stub that stays detected for two polls
and then clears, the waiter returns `true`; with a never-clearing stub and
a 5000 ms deadline it returns `false`. -/
theorem waitForHumanStepResolution_true_iff_witness :
    waitForHumanStepResolution clearsAtTwoPages recaptchaDetection = true ∧
    waitForHumanStepResolution (fun _ => captchaPage) recaptchaDetection 5000 = false := by
  constructor
  · exact (waitForHumanStepResolution_true_iff clearsAtTwoPages recaptchaDetection
      300000).1.mpr ⟨2, by norm_num, by decide⟩
  · cases hb : waitForHumanStepResolution (fun _ => captchaPage) recaptchaDetection 5000 with
    | false => rfl
    | true =>
      obtain ⟨k, -, hk⟩ :=
        (waitForHumanStepResolution_true_iff (fun _ => captchaPage) recaptchaDetection
          5000).1.mp hb
      rw [show detectHumanStep ((fun _ => captchaPage) k) = some recaptchaDetection from
        detectHumanStep_captchaPage] at hk
      simp [pollResolved, recaptchaDetection] at hk

/-- A page with consent text whose checkboxes are all checked already. -/
def consentDonePage : Page :=
  { frameBodyCount := fun _ => 0,
    locatorCount := fun s => if s = "text*=\"I agree to\"" then 1 else 0 }

/-- A page with consent text and one unchecked checkbox. -/
def consentReadyPage : Page :=
  { frameBodyCount := fun _ => 0,
    locatorCount := fun s =>
      if s = "text*=\"I agree to\"" ∨ s = uncheckedCheckboxSelector then 1 else 0 }

/-- C6 witness: consent text with an unchecked checkbox is detected;
consent text with every checkbox already checked is not. -/
theorem detectConsent_detected_iff_witness :
    (detectConsent consentReadyPage).detected = true ∧
    (detectConsent consentDonePage).detected = false := by
  constructor
  · exact (detectConsent_detected_iff consentReadyPage).mpr
      ⟨⟨"text*=\"I agree to\"", by decide, by decide⟩, by decide⟩
  · cases hb : (detectConsent consentDonePage).detected with
    | false => rfl
    | true =>
      obtain ⟨-, hchk⟩ := (detectConsent_detected_iff consentDonePage).mp hb
      exact absurd hchk (by decide)

/-- A page with a bare visible file input and no upload-prompt text. -/
def bareFileInputPage : Page :=
  { frameBodyCount := fun _ => 0,
    locatorCount := fun s => if s = fileInputSelector then 1 else 0 }

/-- A page with a visible file input and an `Upload resume` prompt. -/
def uploadPage : Page :=
  { frameBodyCount := fun _ => 0,
    locatorCount := fun s =>
      if s = fileInputSelector ∨ s = "text*=\"Upload resume\"" then 1 else 0 }

/-- C7 witness: a visible file input with a resume prompt is detected; a
bare file input with no prompt text is not. -/
theorem detectFileUpload_detected_iff_witness :
    (detectFileUpload uploadPage).detected = true ∧
    (detectFileUpload bareFileInputPage).detected = false := by
  constructor
  · exact (detectFileUpload_detected_iff uploadPage).mpr
      ⟨by decide, "text*=\"Upload resume\"", by decide, by decide⟩
  · cases hb : (detectFileUpload bareFileInputPage).detected with
    | false => rfl
    | true =>
      obtain ⟨-, sel, hmem, hsel⟩ := (detectFileUpload_detected_iff bareFileInputPage).mp hb
      have : sel ≠ fileInputSelector := by
        simp only [uploadLabels, List.mem_cons, List.not_mem_nil, or_false] at hmem
        rcases hmem with h | h | h | h <;> (subst h; decide)
      simp only [bareFileInputPage] at hsel
      rw [if_neg this] at hsel
      exact absurd hsel (by decide)
